import Mathlib

/-!
Verification of the journal status workflow of the nbu-journal-frontend
repository.  The data model follows the type declarations shipped with the
authentication context module; the handlers are embedded from the journal
pages (journal detail page, published-journal detail page, all-journals page)
and from the JournalCard components.  Statuses travel as plain strings in the
source (the Journal interface declares status as JournalStatus or string), so
they are strings here as well; free text is a list of characters.
-/

namespace NbuJournal

/-- Roles of the four-role user model, from the UserRole enum of the types
module: super_admin, admin, reviewer, publisher. -/
inductive UserRole where
  | super_admin
  | admin
  | reviewer
  | publisher
deriving DecidableEq, Repr

/-- The acting user, reduced to the fields the workflow consults: id and role. -/
structure User where
  id : Nat
  role : UserRole
deriving DecidableEq, Repr

/-- A review row, from the JournalReview interface of the types module. -/
structure JournalReview where
  journal_id : Nat
  reviewer_id : Nat
  status : String
  comments : List Char
deriving DecidableEq, Repr

/-- A journal record, from the Journal interface of the types module.  The
status field is typed JournalStatus or string there, hence a String here.
Display-only fields and the updated_at timestamp are omitted; no claim
mentions them. -/
structure Journal where
  id : Nat
  title : List Char
  publisher_id : Nat
  reviewer_id : Option Nat
  status : String
  created_at : Nat
  published_date : Option Nat
  publication_number : Option (List Char)
  reviews : List JournalReview
deriving DecidableEq, Repr

/-- The seven values of the JournalStatus enum of the types module. -/
def validStatuses : List String :=
  ["submitted", "received", "assigned", "being_reviewed", "approved", "published", "rejected"]

/-- Membership in the closed seven-value status set. -/
def isValidStatus (s : String) : Bool :=
  validStatuses.contains s

/-- Characters stripped by the JavaScript trim method: the WhiteSpace set
(tab, vertical tab, form feed, space, no-break space, zero-width no-break
space and the Unicode space separators) together with the LineTerminator set
(line feed, carriage return, line separator, paragraph separator). -/
def jsWhitespace : List Char :=
  ['\t', '\n', '\x0B', '\x0C', '\r', ' ', '\u00A0', '\u1680',
   '\u2000', '\u2001', '\u2002', '\u2003', '\u2004', '\u2005', '\u2006',
   '\u2007', '\u2008', '\u2009', '\u200A', '\u2028', '\u2029', '\u202F',
   '\u205F', '\u3000', '\uFEFF']

/-- Whitespace test of the trim calls of the source. -/
def isJsSpace (c : Char) : Bool :=
  jsWhitespace.contains c

/-- Embedding of the JavaScript trim method used by the publish validation:
drop whitespace from both ends. -/
def jsTrim (s : List Char) : List Char :=
  ((s.dropWhile isJsSpace).reverse.dropWhile isJsSpace).reverse

/-- A blank string in the sense of the publish validation: one the source
rejects because its trimmed form is empty. -/
def isBlank (s : List Char) : Bool :=
  decide (jsTrim s = [])

/-- Mutating persistence calls the pages issue through the journalAPI client. -/
inductive ApiCall where
  | assignReviewer (journalId : Nat) (reviewerId : Nat)
  | updateStatus (journalId : Nat) (status : String)
  | reviewJournal (journalId : Nat) (verdict : String) (comments : List Char)
  | publishJournal (journalId : Nat) (publicationNumber : List Char)
  | unpublishJournal (journalId : Nat)
deriving DecidableEq, Repr

/-- Modelled from the spec: the persistence service is an external
collaborator that is not part of this repository, and sections 4.1 and 6 of
the specification give the field effect of each operation.  assignReviewer
sets reviewer_id only; setStatus sets status only; submitReview creates one
JournalReview row attributed to the acting reviewer; publish sets status,
publication_number and published_date; unpublish returns the status to
approved.  The actor argument is the authenticated user id and now is the
server clock. -/
def applyCall (actor : Nat) (now : Nat) (j : Journal) (c : ApiCall) : Journal :=
  match c with
  | ApiCall.assignReviewer jid rid =>
      if j.id = jid then { j with reviewer_id := some rid } else j
  | ApiCall.updateStatus jid s =>
      if j.id = jid then { j with status := s } else j
  | ApiCall.reviewJournal jid verdict comments =>
      if j.id = jid then
        { j with reviews := j.reviews
            ++ [{ journal_id := jid, reviewer_id := actor,
                  status := verdict, comments := comments }] }
      else j
  | ApiCall.publishJournal jid pn =>
      if j.id = jid then
        { j with status := "published", publication_number := some pn,
                 published_date := some now }
      else j
  | ApiCall.unpublishJournal jid =>
      if j.id = jid then { j with status := "approved" } else j

/-- Fold the persistence calls over the journal state in order. -/
def runCalls (actor now : Nat) (j : Journal) : List ApiCall → Journal
  | [] => j
  | c :: cs => runCalls actor now (applyCall actor now j c) cs

/-- Every state the journal passes through while the calls run, the initial
state included; each entry before the last is observable when a later call
fails. -/
def statesAlong (actor now : Nat) (j : Journal) : List ApiCall → List Journal
  | [] => [j]
  | c :: cs => j :: statesAlong actor now (applyCall actor now j c) cs

/-- Outcome of the publish click handler of the journal detail page. -/
inductive PublishAttempt where
  | noJournal
  | validationError
  | apiPublish (journalId : Nat) (publicationNumber : List Char)
deriving DecidableEq, Repr

/-- Embedding of handlePublishJournal from the journal detail page: with no
journal loaded it returns; with a publication number whose trimmed form is
empty it alerts and returns before any API call; otherwise it calls
journalAPI.publishJournal with the entered number. -/
def handlePublishJournal (journal : Option Journal) (publicationNumber : List Char) :
    PublishAttempt :=
  match journal with
  | none => PublishAttempt.noJournal
  | some j =>
      if jsTrim publicationNumber = [] then PublishAttempt.validationError
      else PublishAttempt.apiPublish j.id publicationNumber

/-- Persistence calls issued by the publish click handler. -/
def handlePublishCalls (journal : Option Journal) (publicationNumber : List Char) :
    List ApiCall :=
  match handlePublishJournal journal publicationNumber with
  | PublishAttempt.apiPublish jid pn => [ApiCall.publishJournal jid pn]
  | _ => []

/-- Embedding of the publish-control visibility on the journal detail page:
the publication-details block renders for an approved journal and the number
input plus publish button inside it render for a user whose role is reviewer;
the reviewer_id of the journal is not part of the condition. -/
def publishControlsVisible (user : Option User) (j : Journal) : Bool :=
  decide (j.status = "approved") &&
    (match user with
     | some u => decide (u.role = UserRole.reviewer)
     | none => false)

/-- Verdict values of the review form radio buttons. -/
inductive Verdict where
  | approved
  | rejected
deriving DecidableEq, Repr

/-- String sent for a verdict, matching the radio values of the review form. -/
def verdictStatus : Verdict → String
  | Verdict.approved => "approved"
  | Verdict.rejected => "rejected"

/-- Embedding of handleAssignReviewer from the journal detail page: with a
reviewer selected it calls journalAPI.assignReviewer and then, as a second
separate call, updateJournalStatus with the assigned status. -/
def handleAssignReviewerCalls (j : Journal) (selectedReviewer : Option Nat) : List ApiCall :=
  match selectedReviewer with
  | none => []
  | some rid => [ApiCall.assignReviewer j.id rid, ApiCall.updateStatus j.id ("assigned")]

/-- Embedding of handleReviewSubmit from the journal detail page: it calls
journalAPI.reviewJournal and then, as a second separate call,
updateJournalStatus with approved or rejected matching the verdict. -/
def handleReviewSubmitCalls (j : Journal) (v : Verdict) (comments : List Char) : List ApiCall :=
  [ApiCall.reviewJournal j.id (verdictStatus v) comments,
   ApiCall.updateStatus j.id (verdictStatus v)]

/-- Embedding of the review-form visibility condition on the journal detail
page: role reviewer, journal reviewer_id equal to the user id, and status
assigned or being_reviewed. -/
def reviewFormVisible (user : Option User) (j : Journal) : Bool :=
  match user with
  | none => false
  | some u =>
      decide (u.role = UserRole.reviewer) && decide (j.reviewer_id = some u.id) &&
        (decide (j.status = "assigned") || decide (j.status = "being_reviewed"))

/-- Calls issued when the review form is submitted: the form is only rendered
when reviewFormVisible holds, and its comments textarea carries the required
attribute, so a submission with empty comments never reaches
handleReviewSubmit. -/
def reviewFormSubmitCalls (u : User) (j : Journal) (v : Verdict) (comments : List Char) :
    List ApiCall :=
  if reviewFormVisible (some u) j && !comments.isEmpty then
    handleReviewSubmitCalls j v comments
  else []

/-- Guard of the status update inside handleDownload on the journal detail
page: authenticated, role reviewer, reviewer_id of the journal equal to the
user id, and the journal currently assigned. -/
def downloadGuard (isAuthenticated : Bool) (user : Option User) (j : Journal) : Bool :=
  isAuthenticated &&
    (match user with
     | some u => decide (u.role = UserRole.reviewer) && decide (j.reviewer_id = some u.id)
     | none => false) &&
    decide (j.status = "assigned")

/-- Persistence calls issued by handleDownload before the file download: under
the guard a single updateJournalStatus call with being_reviewed, otherwise
none. -/
def handleDownloadCalls (isAuthenticated : Bool) (user : Option User) (j : Journal) :
    List ApiCall :=
  if downloadGuard isAuthenticated user j then
    [ApiCall.updateStatus j.id ("being_reviewed")]
  else []

/-- Local journal state set by handleDownload alongside the call. -/
def handleDownloadLocal (isAuthenticated : Bool) (user : Option User) (j : Journal) : Journal :=
  if downloadGuard isAuthenticated user j then { j with status := "being_reviewed" } else j

/-- Guard of the automatic status update in the fetch-journal effect of the
journal detail page: authenticated, role admin or super_admin, and the fetched
journal still in status submitted. -/
def adminViewGuard (isAuthenticated : Bool) (user : Option User) (fetched : Journal) : Bool :=
  isAuthenticated &&
    (match user with
     | some u => decide (u.role = UserRole.admin) || decide (u.role = UserRole.super_admin)
     | none => false) &&
    decide (fetched.status = "submitted")

/-- Embedding of the updateJournalStatus helper of the journal detail page:
it reads the journal from the React closure of the render that created it and
returns without any call while that state is still null; otherwise it issues
one setStatus call for the id held in that state. -/
def updateJournalStatus (journalState : Option Journal) (status : String) : List ApiCall :=
  match journalState with
  | none => []
  | some j => [ApiCall.updateStatus j.id status]

/-- Persistence calls issued by the fetch-journal effect: under the guard it
invokes the updateJournalStatus helper with received; the helper sees the
journal state captured by its closure, which on the first run of the effect
is still null even though setJournal has just been called with the fetched
journal. -/
def fetchJournalAutoCalls (isAuthenticated : Bool) (user : Option User)
    (journalState : Option Journal) (fetched : Journal) : List ApiCall :=
  if adminViewGuard isAuthenticated user fetched then
    updateJournalStatus journalState ("received")
  else []

/-- Actions of handlePublishToggle on the published-journal detail page. -/
inductive ToggleAction where
  | unpublishCall (journalId : Nat)
  | republishCall (journalId : Nat) (publicationNumber : List Char)
  | missingPublicationNumber
deriving DecidableEq, Repr

/-- Embedding of handlePublishToggle from the published-journal detail page: a
published journal is unpublished by setting its status to approved; any other
journal is republished with the stored publication number, and the handler
throws when none is stored. -/
def handlePublishToggle (j : Journal) : ToggleAction :=
  if j.status = "published" then ToggleAction.unpublishCall j.id
  else
    match j.publication_number with
    | some pn => ToggleAction.republishCall j.id pn
    | none => ToggleAction.missingPublicationNumber

/-- Embedding of canUnpublish from the JournalCard components: super_admin,
admin or reviewer. -/
def canUnpublish (user : Option User) : Bool :=
  match user with
  | none => false
  | some u =>
      decide (u.role = UserRole.super_admin) || decide (u.role = UserRole.admin) ||
        decide (u.role = UserRole.reviewer)

/-- Embedding of the unpublish-button condition on the full JournalCard
variants: canUnpublish together with a published journal. -/
def cardUnpublishVisible (user : Option User) (j : Journal) : Bool :=
  canUnpublish user && decide (j.status = "published")

/-- Embedding of canDeleteJournal on the published-journal detail page, the
condition that also gates its unpublish and republish button: authenticated
and role super_admin, admin or reviewer. -/
def canDeleteJournal (isAuthenticated : Bool) (user : Option User) : Bool :=
  isAuthenticated &&
    (match user with
     | none => false
     | some u =>
         decide (u.role = UserRole.super_admin) || decide (u.role = UserRole.admin) ||
           decide (u.role = UserRole.reviewer))

/-- Embedding of the unpublish button of the compact JournalCard variant:
authenticated, role admin, journal published. -/
def adminCardUnpublishVisible (isAuthenticated : Bool) (user : Option User) (j : Journal) :
    Bool :=
  isAuthenticated &&
    (match user with
     | some u => decide (u.role = UserRole.admin)
     | none => false) &&
    decide (j.status = "published")

/-- Embedding of the local list update in handleUnpublishJournal on the
all-journals page: after the unpublish call succeeds it rewrites the matching
journal in the local list to the status string written there. -/
def handleUnpublishJournalUpdate (journals : List Journal) (journalId : Nat) : List Journal :=
  journals.map fun j =>
    if j.id = journalId then { j with status := "unpublished" } else j

/-- Embedding of getStatusBadge from the JournalCard component: the badge
label for each of the seven statuses, none for anything else. -/
def getStatusBadge (status : String) : Option String :=
  if status = "submitted" then some ("Submitted")
  else if status = "received" then some ("Received")
  else if status = "assigned" then some ("Assigned")
  else if status = "being_reviewed" then some ("Being Reviewed")
  else if status = "approved" then some ("Approved")
  else if status = "published" then some ("Published")
  else if status = "rejected" then some ("Rejected")
  else none

/-- Embedding of journalAPI.getJournalById: the public published route is
tried first and any failure falls back to the authenticated route, whose
outcome is returned as is. -/
def getJournalById (publishedRoute : Except String Journal)
    (authenticatedRoute : Except String Journal) : Except String Journal :=
  match publishedRoute with
  | Except.ok j => Except.ok j
  | Except.error _ => authenticatedRoute

/-- Concrete published journal used to evaluate the handlers. -/
def jPublished : Journal :=
  { id := 1
    title := ['t']
    publisher_id := 2
    reviewer_id := some 7
    status := "published"
    created_at := 10
    published_date := some 20
    publication_number := some ['P', '1']
    reviews := [] }

/-- Concrete approved journal: jPublished before publication. -/
def jApproved : Journal :=
  { jPublished with status := "approved" }

/-- Concrete assigned journal awaiting review by reviewer 7. -/
def jAssigned : Journal :=
  { jPublished with status := "assigned", published_date := none, publication_number := none }

/-- Concrete received journal with no reviewer yet. -/
def jReceived : Journal :=
  { jAssigned with status := "received", reviewer_id := none }

/-- Concrete freshly submitted journal awaiting the admin view. -/
def jSubmitted : Journal :=
  { jReceived with status := "submitted" }

/-- A publication number is blank in the sense of the trim-based validation
exactly when every one of its characters is whitespace, the empty string
included. -/
theorem isBlank_iff_all_space (s : List Char) :
    isBlank s = true ↔ ∀ c ∈ s, isJsSpace c = true := by
  unfold isBlank jsTrim
  rw [decide_eq_true_eq, List.reverse_eq_nil_iff, List.dropWhile_eq_nil_iff]
  constructor
  · intro h c hc
    rw [← List.takeWhile_append_dropWhile (p := isJsSpace) (l := s)] at hc
    rcases List.mem_append.mp hc with h1 | h2
    · exact List.mem_takeWhile_imp h1
    · exact h c (List.mem_reverse.mpr h2)
  · intro h c hc
    exact h c (List.dropWhile_subset isJsSpace (List.mem_reverse.mp hc))

/-- C1: the unpublish handler of the all-journals page rewrites a published
journal in its local list to the status string unpublished, a value outside
the seven-value closed status set, and the card badge renderer has no case
for that value, so it is accepted silently rather than rejected. -/
theorem C1_unpublish_produces_out_of_set_status :
    handleUnpublishJournalUpdate [jPublished] 1
        = [{ jPublished with status := "unpublished" }] ∧
    isValidStatus ("unpublished") = false ∧
    isValidStatus jPublished.status = true ∧
    getStatusBadge ("unpublished") = none := by
  refine ⟨?_, ?_, ?_, ?_⟩ <;> decide

/-- C2: publishing an approved journal with a blank publication number, empty
or whitespace only, fails the validation in handlePublishJournal before any
persistence call, leaving the journal unchanged; a non-blank number proceeds
to the journalAPI.publishJournal call. -/
theorem C2_blank_publication_number_fails_validation (j : Journal) (pn : List Char)
    (actor now : Nat) (_hstat : j.status = "approved") :
    ((∀ c ∈ pn, isJsSpace c = true) →
       handlePublishJournal (some j) pn = PublishAttempt.validationError ∧
       handlePublishCalls (some j) pn = [] ∧
       runCalls actor now j (handlePublishCalls (some j) pn) = j) ∧
    ((¬ ∀ c ∈ pn, isJsSpace c = true) →
       handlePublishJournal (some j) pn = PublishAttempt.apiPublish j.id pn ∧
       handlePublishCalls (some j) pn = [ApiCall.publishJournal j.id pn]) := by
  constructor
  · intro hall
    have hb : jsTrim pn = [] := by
      have h1 := (isBlank_iff_all_space pn).mpr hall
      simpa [isBlank] using h1
    refine ⟨?_, ?_, ?_⟩
    · simp [handlePublishJournal, hb]
    · simp [handlePublishCalls, handlePublishJournal, hb]
    · simp [handlePublishCalls, handlePublishJournal, hb, runCalls]
  · intro hna
    have hb : ¬ jsTrim pn = [] := by
      intro h
      exact hna ((isBlank_iff_all_space pn).mp (by simpa [isBlank] using h))
    constructor
    · simp [handlePublishJournal, hb]
    · simp [handlePublishCalls, handlePublishJournal, hb]

/-- Witness for C2 at a concrete approved journal: a publication number of a
space and a vertical tab, whitespace only, is rejected with no persistence
call and the journal unchanged. -/
theorem C2_concrete_blank_blocked :
    handlePublishJournal (some jApproved) [' ', '\x0B'] = PublishAttempt.validationError ∧
    handlePublishCalls (some jApproved) [' ', '\x0B'] = [] ∧
    runCalls 7 40 jApproved (handlePublishCalls (some jApproved) [' ', '\x0B'])
        = jApproved := by
  exact (C2_blank_publication_number_fails_validation jApproved [' ', '\x0B'] 7 40
    (by decide)).1 (by decide)

/-- C3 counterexample: on an approved journal whose assigned reviewer has id
7, a user with id 8 and role reviewer is still shown the publish controls. -/
theorem C3_counterexample_nonassigned_reviewer_offered :
    jApproved.reviewer_id = some 7 ∧
    publishControlsVisible (some { id := 8, role := UserRole.reviewer }) jApproved = true := by
  constructor <;> decide

/-- C3 amended: the publish controls on the journal detail page are offered
exactly to users whose role is reviewer when the journal is approved; the
reviewer_id of the journal is not consulted, so assignment plays no part. -/
theorem C3_publish_offered_to_any_reviewer (u : User) (j : Journal) :
    (publishControlsVisible (some u) j = true ↔
       j.status = "approved" ∧ u.role = UserRole.reviewer) ∧
    (∀ r, publishControlsVisible (some u) { j with reviewer_id := r }
        = publishControlsVisible (some u) j) := by
  constructor
  · simp [publishControlsVisible]
  · intro r
    simp [publishControlsVisible]

/-- C4: when the assigned reviewer submits the review form with a verdict and
non-empty comments, the issued calls applied to the journal create exactly one
JournalReview row carrying the verdict and move the status to approved for an
approving verdict and to rejected for a rejecting one; a submission with empty
comments is stopped by the required textarea and issues no call. -/
theorem C4_review_submission (u : User) (j : Journal) (v : Verdict) (comments : List Char)
    (now : Nat) (hrole : u.role = UserRole.reviewer) (hassigned : j.reviewer_id = some u.id)
    (hstatus : j.status = "assigned" ∨ j.status = "being_reviewed") :
    (comments ≠ [] →
       runCalls u.id now j (reviewFormSubmitCalls u j v comments)
         = { j with status := verdictStatus v,
                    reviews := j.reviews
                      ++ [{ journal_id := j.id, reviewer_id := u.id,
                            status := verdictStatus v, comments := comments }] }) ∧
    (comments = [] → reviewFormSubmitCalls u j v comments = []) := by
  have hvis : reviewFormVisible (some u) j = true := by
    rcases hstatus with h | h <;> simp [reviewFormVisible, hrole, hassigned, h]
  constructor
  · intro hc
    have hne : comments.isEmpty = false := by
      cases comments with
      | nil => exact absurd rfl hc
      | cons a l => rfl
    simp [reviewFormSubmitCalls, hvis, hne, handleReviewSubmitCalls, runCalls, applyCall]
  · intro hc
    subst hc
    simp [reviewFormSubmitCalls]

/-- Witness for C4: reviewer 7 approving the concrete assigned journal with
comments creates one approved review row and an approved journal. -/
theorem C4_concrete_approval :
    runCalls 7 30 jAssigned
        (reviewFormSubmitCalls { id := 7, role := UserRole.reviewer } jAssigned
          Verdict.approved ("Good work".toList))
      = { jAssigned with
            status := "approved",
            reviews := jAssigned.reviews
              ++ [{ journal_id := 1, reviewer_id := 7,
                    status := "approved", comments := "Good work".toList }] } := by
  have h := (C4_review_submission { id := 7, role := UserRole.reviewer } jAssigned
    Verdict.approved ("Good work".toList) 30 rfl (by decide) (Or.inl (by decide))).1
    (by decide)
  simpa using h

/-- Characterization of the download guard as a statement about the actor. -/
theorem downloadGuard_eq_true_iff (isAuthenticated : Bool) (user : Option User) (j : Journal) :
    downloadGuard isAuthenticated user j = true ↔
      isAuthenticated = true ∧
        (∃ u, user = some u ∧ u.role = UserRole.reviewer ∧ j.reviewer_id = some u.id) ∧
        j.status = "assigned" := by
  cases user with
  | none => simp [downloadGuard]
  | some u => simp [downloadGuard, and_assoc]

/-- C5: the download handler requests the being_reviewed transition, and sets
it locally, exactly when the actor is an authenticated reviewer assigned to
the journal and the journal status is assigned; in every other case, a
non-assigned reviewer and a journal with no reviewer included, it issues no
status call and leaves the journal unchanged. -/
theorem C5_download_transition (isAuthenticated : Bool) (user : Option User) (j : Journal) :
    (handleDownloadCalls isAuthenticated user j
           = [ApiCall.updateStatus j.id ("being_reviewed")] ∧
         handleDownloadLocal isAuthenticated user j = { j with status := "being_reviewed" }
       ↔ isAuthenticated = true ∧
           (∃ u, user = some u ∧ u.role = UserRole.reviewer ∧ j.reviewer_id = some u.id) ∧
           j.status = "assigned") ∧
    (¬ (isAuthenticated = true ∧
          (∃ u, user = some u ∧ u.role = UserRole.reviewer ∧ j.reviewer_id = some u.id) ∧
          j.status = "assigned") →
       handleDownloadCalls isAuthenticated user j = [] ∧
       handleDownloadLocal isAuthenticated user j = j) := by
  cases hg : downloadGuard isAuthenticated user j with
  | false =>
      have hng : ¬ (isAuthenticated = true ∧
          (∃ u, user = some u ∧ u.role = UserRole.reviewer ∧ j.reviewer_id = some u.id) ∧
          j.status = "assigned") := by
        intro h
        have h2 := (downloadGuard_eq_true_iff isAuthenticated user j).mpr h
        rw [hg] at h2
        exact Bool.false_ne_true h2
      constructor
      · constructor
        · intro h
          have h1 := h.1
          rw [handleDownloadCalls, hg] at h1
          exact absurd h1 (by simp)
        · intro h
          exact absurd h hng
      · intro _
        constructor
        · rw [handleDownloadCalls, hg]
          simp
        · rw [handleDownloadLocal, hg]
          simp
  | true =>
      have hc := (downloadGuard_eq_true_iff isAuthenticated user j).mp hg
      constructor
      · constructor
        · intro _
          exact hc
        · intro _
          constructor
          · rw [handleDownloadCalls, hg]
            simp
          · rw [handleDownloadLocal, hg]
            simp
      · intro hn
        exact absurd hc hn

/-- Witness for C5: the assigned reviewer downloading the concrete assigned
journal triggers the being_reviewed call, while the same unauthenticated
actor triggers nothing. -/
theorem C5_concrete_download :
    handleDownloadCalls true (some { id := 7, role := UserRole.reviewer }) jAssigned
        = [ApiCall.updateStatus jAssigned.id ("being_reviewed")] ∧
    handleDownloadCalls false (some { id := 7, role := UserRole.reviewer }) jAssigned = [] := by
  constructor
  · exact (((C5_download_transition true (some { id := 7, role := UserRole.reviewer })
      jAssigned).1).mpr
      ⟨rfl, ⟨{ id := 7, role := UserRole.reviewer }, rfl, rfl, by decide⟩, by decide⟩).1
  · exact ((C5_download_transition false (some { id := 7, role := UserRole.reviewer })
      jAssigned).2 (by simp)).1

/-- C6: the admin-view guard of the fetch effect holds for an authenticated
admin viewing the concrete submitted journal, yet when the closure of the
updateJournalStatus helper still holds a null journal state, as on the first
run of the effect, no received call is issued and the journal stays
submitted; the call only goes out on a run whose closure already holds the
journal, and a publisher viewing the same journal never triggers one. -/
theorem C6_admin_view_update_skipped :
    adminViewGuard true (some { id := 3, role := UserRole.admin }) jSubmitted = true ∧
    fetchJournalAutoCalls true (some { id := 3, role := UserRole.admin }) none jSubmitted
        = [] ∧
    fetchJournalAutoCalls true (some { id := 3, role := UserRole.admin }) (some jSubmitted)
        jSubmitted
        = [ApiCall.updateStatus 1 ("received")] ∧
    fetchJournalAutoCalls true (some { id := 2, role := UserRole.publisher })
        (some jSubmitted) jSubmitted
        = [] := by
  refine ⟨?_, ?_, ?_, ?_⟩ <;> decide


/-- C7 counterexample: assigning reviewer 7 to the concrete received journal
issues two separate persistence calls, and the state reached after the first
one alone, observable between the calls and final when the second call fails,
has the reviewer set while the status is still received: the transition is
partially applied. -/
theorem C7_counterexample_partial_assignment :
    handleAssignReviewerCalls jReceived (some 7)
        = [ApiCall.assignReviewer 1 7, ApiCall.updateStatus 1 ("assigned")] ∧
    (applyCall 9 30 jReceived (ApiCall.assignReviewer 1 7)).reviewer_id = some 7 ∧
    (applyCall 9 30 jReceived (ApiCall.assignReviewer 1 7)).status = "received" ∧
    (applyCall 9 30 jReceived (ApiCall.assignReviewer 1 7))
        ∈ statesAlong 9 30 jReceived (handleAssignReviewerCalls jReceived (some 7)) := by
  refine ⟨?_, ?_, ?_, ?_⟩ <;> decide

/-- C7 amended: reviewer assignment is two sequential persistence calls, not
one atomic step; when both succeed the reviewer_id and the assigned status
land together in the final state, but the run passes through an observable
intermediate state in which only the reviewer_id has changed; review
submission likewise issues its row-creating call and its status call
separately. -/
theorem C7_two_call_assignment (j : Journal) (rid actor now : Nat) (v : Verdict)
    (comments : List Char) :
    runCalls actor now j (handleAssignReviewerCalls j (some rid))
        = { j with reviewer_id := some rid, status := "assigned" } ∧
    (applyCall actor now j (ApiCall.assignReviewer j.id rid)).status = j.status ∧
    (applyCall actor now j (ApiCall.assignReviewer j.id rid)).reviewer_id = some rid ∧
    (applyCall actor now j (ApiCall.assignReviewer j.id rid))
        ∈ statesAlong actor now j (handleAssignReviewerCalls j (some rid)) ∧
    handleReviewSubmitCalls j v comments
        = [ApiCall.reviewJournal j.id (verdictStatus v) comments,
           ApiCall.updateStatus j.id (verdictStatus v)] := by
  refine ⟨?_, ?_, ?_, ?_, rfl⟩
  · simp [handleAssignReviewerCalls, runCalls, applyCall]
  · simp [applyCall]
  · simp [applyCall]
  · simp [handleAssignReviewerCalls, statesAlong]

/-- C8: unpublishing through the publish toggle issues only a status call back
to approved, and applying it retains every other field, publication_number
and published_date included; toggling the resulting approved journal again
republishes with the stored publication number and fails when none is
stored. -/
theorem C8_unpublish_frame (j : Journal) (actor now : Nat)
    (hpub : j.status = "published") :
    handlePublishToggle j = ToggleAction.unpublishCall j.id ∧
    applyCall actor now j (ApiCall.updateStatus j.id ("approved"))
        = { j with status := "approved" } ∧
    (applyCall actor now j (ApiCall.updateStatus j.id ("approved"))).publication_number
        = j.publication_number ∧
    (applyCall actor now j (ApiCall.updateStatus j.id ("approved"))).published_date
        = j.published_date ∧
    (∀ pn, j.publication_number = some pn →
       handlePublishToggle { j with status := "approved" }
         = ToggleAction.republishCall j.id pn) ∧
    (j.publication_number = none →
       handlePublishToggle { j with status := "approved" }
         = ToggleAction.missingPublicationNumber) := by
  refine ⟨?_, ?_, ?_, ?_, ?_, ?_⟩
  · simp [handlePublishToggle, hpub]
  · simp [applyCall]
  · simp [applyCall]
  · simp [applyCall]
  · intro pn hpn
    unfold handlePublishToggle
    rw [if_neg (by simp)]
    simp [hpn]
  · intro hpn
    unfold handlePublishToggle
    rw [if_neg (by simp)]
    simp [hpn]

/-- Witness for C8 at the concrete published journal: the toggle unpublishes,
the applied call keeps the publication number and date, and a second toggle
republishes with the stored number. -/
theorem C8_concrete_toggle :
    handlePublishToggle jPublished = ToggleAction.unpublishCall jPublished.id ∧
    applyCall 9 40 jPublished (ApiCall.updateStatus jPublished.id ("approved"))
        = { jPublished with status := "approved" } ∧
    handlePublishToggle { jPublished with status := "approved" }
        = ToggleAction.republishCall jPublished.id ['P', '1'] := by
  have h := C8_unpublish_frame jPublished 9 40 (by decide)
  exact ⟨h.1, h.2.1, h.2.2.2.2.1 ['P', '1'] (by decide)⟩

/-- C9 counterexample: a super_admin is offered the unpublish trigger on the
full JournalCard for a published journal, while the compact admin-only card
variant does not offer it to the same authenticated user, so the
authorization predicate is not the same at every site the trigger appears. -/
theorem C9_counterexample_predicates_differ :
    cardUnpublishVisible (some { id := 5, role := UserRole.super_admin }) jPublished = true ∧
    adminCardUnpublishVisible true (some { id := 5, role := UserRole.super_admin })
        jPublished = false := by
  constructor <;> decide

/-- C9 amended: canUnpublish on the JournalCard variants and canDeleteJournal
on the published-journal detail page both hold exactly for the roles admin,
super_admin and reviewer, assigned or not, and never for publisher; the
compact card variant however offers its unpublish button only to an
authenticated admin, so the predicate differs at that one site. -/
theorem C9_unpublish_roles (u : User) (j : Journal) (isAuthenticated : Bool) :
    (canUnpublish (some u) = true ↔ u.role ≠ UserRole.publisher) ∧
    (canDeleteJournal true (some u) = true ↔ u.role ≠ UserRole.publisher) ∧
    (cardUnpublishVisible (some u) j = true ↔
       u.role ≠ UserRole.publisher ∧ j.status = "published") ∧
    (adminCardUnpublishVisible isAuthenticated (some u) j = true ↔
       isAuthenticated = true ∧ u.role = UserRole.admin ∧ j.status = "published") := by
  rcases u with ⟨uid, urole⟩
  cases urole <;>
    simp [canUnpublish, canDeleteJournal, cardUnpublishVisible, adminCardUnpublishVisible,
      and_assoc]

/-- C10: getJournalById returns the public published-route response whenever
that unauthenticated request succeeds, falls back to the authenticated route
when it fails, and surfaces an error to the caller exactly when both requests
fail. -/
theorem C10_public_route_fallback (publishedRoute authenticatedRoute : Except String Journal) :
    (∀ j, publishedRoute = Except.ok j →
       getJournalById publishedRoute authenticatedRoute = Except.ok j) ∧
    (∀ e, publishedRoute = Except.error e →
       getJournalById publishedRoute authenticatedRoute = authenticatedRoute) ∧
    (∀ e, getJournalById publishedRoute authenticatedRoute = Except.error e ↔
       (∃ e1, publishedRoute = Except.error e1) ∧ authenticatedRoute = Except.error e) := by
  cases publishedRoute with
  | ok j => simp [getJournalById]
  | error e => simp [getJournalById]

/-- Witness for C10: with the public route failing and the authenticated route
succeeding, the concrete journal is still returned; a public-route success is
returned as is without consulting the authenticated route. -/
theorem C10_concrete_fallback :
    getJournalById (Except.error ("401")) (Except.ok jPublished) = Except.ok jPublished ∧
    getJournalById (Except.ok jPublished) (Except.error ("500")) = Except.ok jPublished := by
  constructor
  · exact (C10_public_route_fallback (Except.error ("401")) (Except.ok jPublished)).2.1
      ("401") rfl
  · exact (C10_public_route_fallback (Except.ok jPublished) (Except.error ("500"))).1
      jPublished rfl

end NbuJournal
